import Mathlib

/-!
Verification development for `solr_fstats/solr_fstats.py`, a one-file tool
that computes per-field coverage statistics of a Solr collection and prints
them as CSV.

The script is shallowly embedded below.  Remote HTTP traffic is replaced by
explicit response values handed to each function: every remote call site in
the Python code receives the decoded response of the corresponding query as
an argument (status code plus body, and — for the JSON endpoints — the
decoded payload field the code extracts, since JSON decoding of the
black-box index's replies is outside the scope of this development).
Python exceptions (`RuntimeError` raised by the script, `ZeroDivisionError`
raised by float division) are modelled with `Except` / explicit error
values.  Python `float` arithmetic on the percentage is modelled by exact
rational arithmetic, rounded half-up at the hundredths digit (the binary
floating-point rounding of the interpreter is abstracted; the two agree on
all values considered in the theorems below).
-/

/-! ## Python string primitives used by the script -/

/-- Core of Python's `str.split(sep)` for a one-character separator,
working on the character list of the string.  `splitChar c l` always
returns at least one (possibly empty) chunk, like Python's `split`. -/
def splitChar (c : Char) : List Char → List (List Char)
  | [] => [[]]
  | x :: xs =>
    match splitChar c xs with
    | y :: ys => if x = c then [] :: y :: ys else (x :: y) :: ys
    | [] => [[x]]

/-- Python's `str.split(sep)` for a one-character separator. -/
def pySplit (s : String) (c : Char) : List String :=
  (splitChar c s.data).map String.mk

/-- Python's `str.splitlines()` restricted to `\n` line terminators (the
only terminator occurring in the modelled responses): split on `\n` and
drop the trailing empty chunk a terminating `\n` would produce, so that
`""` yields zero lines and `"\n"` yields one empty line. -/
def pySplitlines (s : String) : List String :=
  let parts := (splitChar '\n' s.data).map String.mk
  if parts.getLast? = some "" then parts.dropLast else parts

/-! ## Constants of the script -/

def FIELD_NAME : String := "field_name"

def EXISTING : String := "existing"

def EXISTING_PERCENTAGE : String := "existing_percentage"

def NOTEXISTING : String := "notexisting"

def NOTEXISTING_PERCENTAGE : String := "notexisting_percentage"

def USED_FIELDS_DELIMITER : Char := ','

/-- `get_header()` of the script. -/
def get_header : List String :=
  [FIELD_NAME, EXISTING, EXISTING_PERCENTAGE, NOTEXISTING, NOTEXISTING_PERCENTAGE]

/-! ## Errors

The script signals failures by raising: `RuntimeError` for a non-success
HTTP status (raised in `solr_request`, message carrying core, base URI,
request, status and decoded body if any) and for a malformed payload
shape (wrong JSON shape / wrong number of CSV lines, message carrying the
request and the offending response), and Python's `ZeroDivisionError` for
the float division by zero in `get_field_statistics`.  The specification
calls the first two `QueryFailure`. -/

inductive RunError where
  /-- `RuntimeError` raised by `solr_request` on a non-200 status; carries
  the core, the base URI, the request issued, the status code and the
  decoded response body when the body is non-empty. -/
  | queryFailure (core base_uri request : String) (status : Nat) (content : Option String)
  /-- `RuntimeError` raised by a caller of `solr_request` when the decoded
  response lacks the expected shape (missing JSON keys, or a delimited
  response that is not exactly one line); carries the request and the
  response it complains about. -/
  | shapeFailure (request : String) (response : String)
  /-- Python `ZeroDivisionError` from `float(x) / float(0)`. -/
  | zeroDivision
deriving DecidableEq

/-! ## Modelled responses of the remote index -/

/-- A raw HTTP response: status code and UTF-8 decoded body. -/
structure RawResponse where
  status : Nat
  body : String
deriving DecidableEq

/-- Response of the schema query.  `fieldNames` is the list
`[field['name'] for field in schema['schema']['fields']]` when the decoded
JSON body has the `schema`/`fields` shape, and `none` otherwise (JSON
decoding of the black-box reply is abstracted into this field). -/
structure SchemaResponse where
  status : Nat
  body : String
  fieldNames : Option (List String)

/-- Response of a zero-row count query.  `numFound` is the value of
`response['numFound']` when the decoded JSON body has the
`response`/`numFound` shape, and `none` otherwise. -/
structure CountResponse where
  status : Nat
  body : String
  numFound : Option Nat

/-! ## The embedded script -/

/-- `format_solr_instance(host, port)`: default the scheme to `http://`
when the host does not start with the prefix `"http"`, append `:port`
when `port` is truthy (Python `if port:` — `None` and `0` are falsy),
and append the fixed suffix `/solr/`. -/
def format_solr_instance (host : String) (port : Option Int) : String :=
  let formatted_host :=
    if "http".data.isPrefixOf host.data then host else "http" ++ "://" ++ host
  match port with
  | some p => if p ≠ 0 then formatted_host ++ ":" ++ toString p ++ "/solr/"
              else formatted_host ++ "/solr/"
  | none => formatted_host ++ "/solr/"

/-- `solr_request(core, base_uri, request)` given the response of the
issued HTTP GET: raise `RuntimeError` when the status is not 200 (with
the decoded content in the message when the content is non-empty,
mirroring `if response.content:`), otherwise return the decoded body. -/
def solr_request (core base_uri request : String) (response : RawResponse) :
    Except RunError String :=
  if response.status ≠ 200 then
    .error (.queryFailure core base_uri request response.status
      (if response.body = "" then none else some response.body))
  else
    .ok response.body

/-- Request string built by `get_schema_fields`. -/
def schemaRequest (base_uri core : String) : String :=
  base_uri ++ core ++ "/schema?wt=json"

/-- `get_schema_fields(base_uri, core)` given the schema query response:
propagate `solr_request` failures, raise on a payload without the
`schema`/`fields` shape, and otherwise return the field names. -/
def get_schema_fields (base_uri core : String) (resp : SchemaResponse) :
    Except RunError (List String) :=
  match solr_request core base_uri (schemaRequest base_uri core) ⟨resp.status, resp.body⟩ with
  | .error e => .error e
  | .ok _ =>
    match resp.fieldNames with
    | none => .error (.shapeFailure (schemaRequest base_uri core) resp.body)
    | some fields => .ok fields

/-- Request string built by `get_used_fields`. -/
def usedFieldsRequest (base_uri core : String) : String :=
  base_uri ++ core ++ "/select?q=*%3A*&wt=csv&rows=0"

/-- `get_used_fields(base_uri, core)` given the used-fields query
response: propagate `solr_request` failures, raise when the body is not
exactly one line, and otherwise split the single line on the comma
delimiter. -/
def get_used_fields (base_uri core : String) (resp : RawResponse) :
    Except RunError (List String) :=
  match solr_request core base_uri (usedFieldsRequest base_uri core) resp with
  | .error e => .error e
  | .ok response_body =>
    match pySplitlines response_body with
    | [used_fields] => .ok (pySplit used_fields USED_FIELDS_DELIMITER)
    | _ => .error (.shapeFailure (usedFieldsRequest base_uri core) response_body)

/-- Lexicographic less-or-equal on character lists, comparing code
points — the order Python uses on `str` and the order of Lean's `String`
(see `strLeB_iff_le`).  Written as structural recursion so that concrete
instances evaluate inside the kernel. -/
def lexLe : List Char → List Char → Bool
  | [], _ => true
  | _ :: _, [] => false
  | a :: as, b :: bs => if a < b then true else if b < a then false else lexLe as bs

/-- Lexicographic less-or-equal on strings. -/
def strLeB (a b : String) : Bool :=
  lexLe a.data b.data

/-- Python's `SortedSet(set(l))` iterated to a list: the distinct elements
of `l` in ascending lexicographic order. -/
def sortedSet (l : List String) : List String :=
  List.insertionSort (fun a b => strLeB a b = true) l.dedup

/-- Body of `get_fields` once both name collections are fetched:
`SortedSet(set(schema_fields + used_fields))`. -/
def fieldsUnion (schema_fields used_fields : List String) : List String :=
  sortedSet (schema_fields ++ used_fields)

/-- `get_fields(base_uri, core)` given both discovery responses. -/
def get_fields (base_uri core : String) (schemaResp : SchemaResponse)
    (usedResp : RawResponse) : Except RunError (List String) :=
  match get_schema_fields base_uri core schemaResp with
  | .error e => .error e
  | .ok schema_fields =>
    match get_used_fields base_uri core usedResp with
    | .error e => .error e
    | .ok used_fields => .ok (fieldsUnion schema_fields used_fields)

/-- Request string built by `get_records_total`. -/
def recordsTotalRequest (base_uri core : String) : String :=
  base_uri ++ core ++ "/select?q=*%3A*&rows=0&wt=json"

/-- `get_records_total(base_uri, core)` given the total-count response. -/
def get_records_total (base_uri core : String) (resp : CountResponse) :
    Except RunError Nat :=
  match solr_request core base_uri (recordsTotalRequest base_uri core) ⟨resp.status, resp.body⟩ with
  | .error e => .error e
  | .ok _ =>
    match resp.numFound with
    | none => .error (.shapeFailure (recordsTotalRequest base_uri core) resp.body)
    | some n => .ok n

/-- Request string built by `get_field_total` for a field (or negated
field) expression. -/
def fieldTotalRequest (base_uri core field : String) : String :=
  base_uri ++ core ++ "/select?q=" ++ field ++ "%3A*&rows=0&wt=json"

/-- `get_field_total(field, base_uri, core)`.  `fieldResp` hands the
function the count response of the remote index for each field (or
negated field) expression it queries. -/
def get_field_total (fieldResp : String → CountResponse) (base_uri core field : String) :
    Except RunError Nat :=
  let resp := fieldResp field
  match solr_request core base_uri (fieldTotalRequest base_uri core field)
      ⟨resp.status, resp.body⟩ with
  | .error e => .error e
  | .ok _ =>
    match resp.numFound with
    | none => .error (.shapeFailure (fieldTotalRequest base_uri core field) resp.body)
    | some n => .ok n

/-- Hundredths of the percentage `(count / total) * 100`, i.e. the exact
rational `(count / total) * 100 * 100` rounded half-up:
`(20000 * count + total) / (2 * total)` in integer division.  This models
`(float(field_total) / float(records_total)) * 100` followed by
`"{0:.2f}"` formatting (the rounding of the binary float is abstracted to
exact rational rounding; see `percentHundredths_eq_floor`). -/
def percentHundredths (count total : Nat) : Nat :=
  (20000 * count + total) / (2 * total)

/-- `"{0:.2f}".format(p)` for the percentage with hundredths value `m`:
the integer part in decimal, a point, then exactly the tens and ones
digits of `m`'s fractional hundredths. -/
def formatTwoDecimals (m : Nat) : String :=
  Nat.repr (m / 100) ++ "." ++ String.mk [Nat.digitChar (m / 10 % 10), Nat.digitChar (m % 10)]

/-- The percentage string `"{0:.2f}".format((count / total) * 100)`. -/
def percentString (count total : Nat) : String :=
  formatTwoDecimals (percentHundredths count total)

/-- `get_field_statistics(field, base_uri, core, records_total)`.
Returns the trace of field expressions queried (always the one field)
together with the result; Python's `float(field_total) /
float(records_total)` raises `ZeroDivisionError` when `records_total` is
zero, which is modelled by the explicit zero test guarding the
percentage. -/
def get_field_statistics (fieldResp : String → CountResponse)
    (base_uri core field : String) (records_total : Nat) :
    List String × Except RunError (Nat × String) :=
  match get_field_total fieldResp base_uri core field with
  | .error e => ([field], .error e)
  | .ok field_total =>
    if records_total = 0 then ([field], .error .zeroDivision)
    else ([field], .ok (field_total, percentString field_total records_total))

/-- One row of the report, the dict built by `get_all_field_statistics`. -/
structure CoverageRecord where
  field_name : String
  existing : Nat
  existing_percentage : String
  notexisting : Nat
  notexisting_percentage : String
deriving DecidableEq

/-- `get_all_field_statistics(field, base_uri, core, records_total)`:
query the field and then its negation `"-" + field`, failing fast, and
assemble the Coverage Record.  The first component is the trace of field
expressions queried, in order. -/
def get_all_field_statistics (fieldResp : String → CountResponse)
    (base_uri core field : String) (records_total : Nat) :
    List String × Except RunError CoverageRecord :=
  match get_field_statistics fieldResp base_uri core field records_total with
  | (t1, .error e) => (t1, .error e)
  | (t1, .ok field_stats) =>
    match get_field_statistics fieldResp base_uri core ("-" ++ field) records_total with
    | (t2, .error e) => (t1 ++ t2, .error e)
    | (t2, .ok field_neg_stats) =>
      (t1 ++ t2, .ok ⟨field, field_stats.1, field_stats.2,
        field_neg_stats.1, field_neg_stats.2⟩)

/-- The list comprehension of `run`:
`[get_all_field_statistics(field, ...) for field in fields]`, evaluated
left to right with the first raised exception propagating (no later field
is queried).  The first component is the trace of field expressions
queried, in order. -/
def buildStats (fieldResp : String → CountResponse) (base_uri core : String)
    (records_total : Nat) : List String → List String × Except RunError (List CoverageRecord)
  | [] => ([], .ok [])
  | field :: fields =>
    match get_all_field_statistics fieldResp base_uri core field records_total with
    | (t, .error e) => (t, .error e)
    | (t, .ok record) =>
      match buildStats fieldResp base_uri core records_total fields with
      | (t2, .error e) => (t ++ t2, .error e)
      | (t2, .ok records) => (t ++ t2, .ok (record :: records))

/-- The row `csv.DictWriter.writerow` emits for one Coverage Record,
in header column order. -/
def recordRow (r : CoverageRecord) : List String :=
  [r.field_name, Nat.repr r.existing, r.existing_percentage,
   Nat.repr r.notexisting, r.notexisting_percentage]

/-- `csv_print(field_statistics)`: the header row followed by one row per
record, in order. -/
def csv_print (field_statistics : List CoverageRecord) : List (List String) :=
  get_header :: field_statistics.map recordRow

/-- The remote side of one run: CLI arguments plus the responses the
index gives to each query the script issues. -/
structure RunEnv where
  host : String
  port : Option Int
  core : String
  schemaResp : SchemaResponse
  usedResp : RawResponse
  totalResp : CountResponse
  fieldResp : String → CountResponse

/-- Observable outcome of one run: the field expressions sent as coverage
(count) queries in order, the rows written to stdout, and the final
result (an uncaught exception terminates the process with no output from
`csv_print`). -/
structure RunResult where
  queriedFields : List String
  output : List (List String)
  result : Except RunError Unit

/-- `run()` after argument parsing: discover fields, fetch the total,
build all statistics, and only then print.  Any raised error propagates
and nothing is printed. -/
def run (env : RunEnv) : RunResult :=
  let solr_instance := format_solr_instance env.host env.port
  match get_fields solr_instance env.core env.schemaResp env.usedResp with
  | .error e => ⟨[], [], .error e⟩
  | .ok fields =>
    match get_records_total solr_instance env.core env.totalResp with
    | .error e => ⟨[], [], .error e⟩
    | .ok total =>
      match buildStats env.fieldResp solr_instance env.core total fields with
      | (t, .error e) => ⟨t, [], .error e⟩
      | (t, .ok stats) => ⟨t, csv_print stats, .ok ()⟩

/-! ## Semantic model of the index for coverage queries

For the claims about count arithmetic the black-box index is modelled as
a list of documents, each given by the list of fields it carries.  A
coverage query for `field` matches the documents containing the field; a
coverage query for the negated expression `-field` matches the documents
not containing it (Solr's semantics of the pure negative query the script
sends for `"-" + field`). -/

/-- `numFound` of the zero-row query `q=<fieldExpr>%3A*` against the
document list: a leading `-` negates the field-existence test. -/
def fieldQueryCount (docs : List (List String)) (fieldExpr : String) : Nat :=
  if fieldExpr.data.head? = some '-' then
    docs.countP fun d => !(d.contains (String.mk fieldExpr.data.tail))
  else
    docs.countP fun d => d.contains fieldExpr

/-- Responses of a healthy index over `docs`: every coverage query
succeeds with the semantic count. -/
def indexFieldResp (docs : List (List String)) (fieldExpr : String) : CountResponse :=
  ⟨200, "", some (fieldQueryCount docs fieldExpr)⟩

deriving instance DecidableEq for Except

deriving instance DecidableEq for RunResult

/-! ## The lexicographic order: bridge to the `String` order -/

theorem lexLe_iff : ∀ x y : List Char, lexLe x y = true ↔ ¬ List.Lex (· < ·) y x
  | [], [] => by simp [lexLe]
  | [], _ :: _ => by simp [lexLe]
  | a :: as, [] => by
    simp only [lexLe, Bool.false_eq_true, false_iff, not_not]
    exact List.Lex.nil
  | a :: as, b :: bs => by
    simp only [lexLe]
    rcases lt_trichotomy a b with hab | rfl | hba
    · rw [if_pos hab]
      constructor
      · intro _ hlex
        cases hlex with
        | cons h2 => exact lt_irrefl _ hab
        | rel h2 => exact lt_asymm hab h2
      · intro _
        rfl
    · rw [if_neg (lt_irrefl a), if_neg (lt_irrefl a), List.Lex.cons_iff]
      exact lexLe_iff as bs
    · rw [if_neg (lt_asymm hba), if_pos hba]
      simp only [Bool.false_eq_true, false_iff, not_not]
      exact List.Lex.rel hba

theorem strLeB_iff_le {a b : String} : strLeB a b = true ↔ a ≤ b := by
  rw [strLeB, lexLe_iff]
  constructor
  · intro h
    exact not_lt.mp fun hlt => h (String.lt_iff_toList_lt.mp hlt)
  · intro h hlex
    exact absurd (String.lt_iff_toList_lt.mpr hlex) (not_lt.mpr h)

instance : IsTotal String fun a b => strLeB a b = true :=
  ⟨fun a b => by
    rcases le_total a b with h | h
    exacts [Or.inl (strLeB_iff_le.mpr h), Or.inr (strLeB_iff_le.mpr h)]⟩

instance : IsTrans String fun a b => strLeB a b = true :=
  ⟨fun _ _ _ h1 h2 =>
    strLeB_iff_le.mpr (le_trans (strLeB_iff_le.mp h1) (strLeB_iff_le.mp h2))⟩

theorem sortedSet_perm_dedup (l : List String) : (sortedSet l).Perm l.dedup :=
  List.perm_insertionSort _ _

theorem sortedSet_sorted_le (l : List String) : (sortedSet l).Sorted (· ≤ ·) :=
  List.Pairwise.imp (fun h => strLeB_iff_le.mp h) (List.sorted_insertionSort _ _)

theorem sortedSet_nodup (l : List String) : (sortedSet l).Nodup :=
  (sortedSet_perm_dedup l).nodup_iff.mpr (List.nodup_dedup l)

theorem sortedSet_sorted_lt (l : List String) : (sortedSet l).Sorted (· < ·) :=
  (sortedSet_sorted_le l).lt_of_le (sortedSet_nodup l)

theorem mem_sortedSet {x : String} {l : List String} : x ∈ sortedSet l ↔ x ∈ l :=
  (sortedSet_perm_dedup l).mem_iff.trans List.mem_dedup

/-! ## Counting helpers -/

theorem countP_add_countP_not {α : Type} (p : α → Bool) (l : List α) :
    l.countP p + l.countP (fun a => !(p a)) = l.length := by
  induction l with
  | nil => simp
  | cons x xs ih =>
    rw [List.countP_cons, List.countP_cons]
    cases h : p x <;> simp [h] <;> omega

/-! ## Decimal rendering helpers -/

theorem digitChar_isDigit {d : Nat} (h : d < 10) : (Nat.digitChar d).isDigit = true := by
  interval_cases d <;> decide

theorem toDigitsCore_isDigit :
    ∀ (fuel n : Nat) (acc : List Char), (∀ c ∈ acc, c.isDigit = true) →
      ∀ c ∈ Nat.toDigitsCore 10 fuel n acc, c.isDigit = true := by
  intro fuel
  induction fuel with
  | zero =>
    intro n acc hacc c hc
    exact hacc c hc
  | succ fuel ih =>
    intro n acc hacc c hc
    rw [Nat.toDigitsCore] at hc
    have hd : (Nat.digitChar (n % 10)).isDigit = true :=
      digitChar_isDigit (Nat.mod_lt _ (by norm_num))
    by_cases h0 : n / 10 = 0
    · simp only [h0, if_pos rfl] at hc
      rcases List.mem_cons.mp hc with rfl | hc
      · exact hd
      · exact hacc c hc
    · simp only [if_neg h0] at hc
      refine ih (n / 10) _ ?_ c hc
      intro c' hc'
      rcases List.mem_cons.mp hc' with rfl | hc'
      · exact hd
      · exact hacc c' hc'

theorem repr_isDigit (n : Nat) : ∀ c ∈ (Nat.repr n).data, c.isDigit = true := by
  intro c hc
  exact toDigitsCore_isDigit (n + 1) n [] (by simp) c hc

/-- The shape matching the spec's "exactly two digits after the decimal
point": the character list of the string is an integer part free of any
decimal point, one point, and then exactly two digit characters. -/
def TwoFracDigits (s : String) : Prop :=
  ∃ intPart d1 d2, s.data = intPart ++ '.' :: [d1, d2]
    ∧ '.' ∉ intPart ∧ d1.isDigit = true ∧ d2.isDigit = true

theorem twoFracDigits_formatTwoDecimals (m : Nat) : TwoFracDigits (formatTwoDecimals m) := by
  refine ⟨(Nat.repr (m / 100)).data, Nat.digitChar (m / 10 % 10), Nat.digitChar (m % 10),
    ?_, ?_, ?_, ?_⟩
  · show (Nat.repr (m / 100) ++ "." ++ String.mk _).data = _
    rw [String.data_append, String.data_append, List.append_assoc]
    rfl
  · intro hmem
    exact absurd (repr_isDigit (m / 100) '.' hmem) (by decide)
  · exact digitChar_isDigit (Nat.mod_lt _ (by norm_num))
  · exact digitChar_isDigit (Nat.mod_lt _ (by norm_num))

/-! ## Percentage helpers -/

/-- Fidelity of the integer model of the percentage: `percentHundredths`
is exactly `(count / total) * 100`, scaled to hundredths and rounded
half-up, computed in exact rational arithmetic. -/
theorem percentHundredths_eq_floor (count total : Nat) (h : total ≠ 0) :
    percentHundredths count total
      = ⌊((count : ℚ) / (total : ℚ) * 100) * 100 + 1 / 2⌋₊ := by
  have ht : ((total : ℚ)) ≠ 0 := Nat.cast_ne_zero.mpr h
  have key : ((count : ℚ) / (total : ℚ) * 100) * 100 + 1 / 2
      = ((20000 * count + total : ℕ) : ℚ) / ((2 * total : ℕ) : ℚ) := by
    push_cast
    field_simp
    ring
  rw [key, Nat.floor_div_nat, Nat.floor_natCast]
  rfl

theorem percentHundredths_zero (total : Nat) (h : 0 < total) :
    percentHundredths 0 total = 0 := by
  unfold percentHundredths
  rw [Nat.mul_zero, Nat.zero_add]
  exact Nat.div_eq_of_lt (by omega)

theorem percentHundredths_total (total : Nat) (h : 0 < total) :
    percentHundredths total total = 10000 := by
  unfold percentHundredths
  have e : 20000 * total + total = 20001 * total := by ring
  rw [e, Nat.mul_div_mul_right _ _ h]

theorem percentString_zero (total : Nat) (h : 0 < total) :
    percentString 0 total = "0.00" := by
  rw [percentString, percentHundredths_zero total h]
  decide

theorem percentString_total (total : Nat) (h : 0 < total) :
    percentString total total = "100.00" := by
  rw [percentString, percentHundredths_total total h]
  decide

/-! ## Spec-side endpoint formation (for the amended endpoint claim) -/

/-- Endpoint formation as the amended claim words it: the host, defaulted
to the `http://` scheme when it does not already start with the `http`
prefix, then `:port` exactly when a nonzero port is supplied, then the
fixed suffix `/solr/`. -/
def endpointSpec (host : String) (port : Option Int) : String :=
  (if "http".data.isPrefixOf host.data then host else "http://" ++ host)
    ++ (match port with
        | some p => if p = 0 then "" else ":" ++ toString p
        | none => "")
    ++ "/solr/"

/-! ## Environments used as concrete witnesses -/

/-- An entirely empty collection: the schema declares no fields, the
used-fields query answers with one empty header line, and the index holds
zero documents. -/
def emptyCollectionEnv : RunEnv :=
  ⟨"localhost", none, "core", ⟨200, "", some []⟩, ⟨200, "\n"⟩, ⟨200, "", some 0⟩,
    indexFieldResp []⟩

/-- An index whose used-fields query answers with two lines instead of
one. -/
def twoLineEnv : RunEnv :=
  ⟨"localhost", some 8983, "core", ⟨200, "", some ["a"]⟩, ⟨200, "x\ny"⟩, ⟨200, "", some 3⟩,
    indexFieldResp [["a"]]⟩

/-- A healthy discovery phase followed by a field-count query that fails
with a server error on the first field. -/
def failingFieldEnv : RunEnv :=
  ⟨"localhost", none, "core", ⟨200, "", some ["a"]⟩, ⟨200, "x"⟩, ⟨200, "", some 5⟩,
    fun f => if f = "a" then ⟨500, "boom", none⟩ else ⟨200, "", some 0⟩⟩

/-! ## The claims -/

/-- C1: for every field processed with a fixed `records_total` equal to
the document population size, the Coverage Record produced by
`get_all_field_statistics` satisfies
existing-count + not-existing-count = records_total (the field partitions
the document population into "has field" / "lacks field").  The field is
a genuine field name, i.e. does not itself start with the negation
prefix the script prepends for the absence query. -/
theorem claim1_partition (docs : List (List String)) (base_uri core field : String)
    (records_total : Nat) (hfield : field.data.head? ≠ some '-')
    (htotal : records_total = docs.length) (rec : CoverageRecord)
    (h : (get_all_field_statistics (indexFieldResp docs) base_uri core field records_total).2
      = .ok rec) :
    rec.existing + rec.notexisting = records_total := by
  rcases Nat.eq_zero_or_pos records_total with h0 | hpos
  · subst h0
    simp [get_all_field_statistics, get_field_statistics, get_field_total, indexFieldResp,
      solr_request] at h
  · have hne : records_total ≠ 0 := hpos.ne'
    have hcpos : fieldQueryCount docs field = docs.countP fun d => d.contains field := by
      unfold fieldQueryCount
      rw [if_neg hfield]
    have hdata : ("-" ++ field).data = '-' :: field.data := by
      rw [String.data_append]
      rfl
    have hcneg : fieldQueryCount docs ("-" ++ field)
        = docs.countP fun d => !(d.contains field) := by
      unfold fieldQueryCount
      rw [hdata, if_pos (show ('-' :: field.data).head? = some '-' from rfl)]
      rfl
    have e1 : get_field_statistics (indexFieldResp docs) base_uri core field records_total
        = ([field], .ok (docs.countP (fun d => d.contains field),
            percentString (docs.countP fun d => d.contains field) records_total)) := by
      unfold get_field_statistics get_field_total indexFieldResp solr_request
      simp [hne, hcpos]
    have e2 : get_field_statistics (indexFieldResp docs) base_uri core ("-" ++ field)
        records_total
        = (["-" ++ field], .ok (docs.countP (fun d => !(d.contains field)),
            percentString (docs.countP fun d => !(d.contains field)) records_total)) := by
      unfold get_field_statistics get_field_total indexFieldResp solr_request
      simp [hne, hcneg]
    unfold get_all_field_statistics at h
    rw [e1, e2] at h
    simp at h
    rw [← h]
    rw [htotal]
    exact countP_add_countP_not _ docs

/-- Witness for C1 at a one-document index. -/
theorem claim1_witness :
    (⟨"title", 1, "100.00", 0, "0.00"⟩ : CoverageRecord).existing
      + (⟨"title", 1, "100.00", 0, "0.00"⟩ : CoverageRecord).notexisting = 1 :=
  claim1_partition [["title"]] "http://localhost:8983/solr/" "core" "title" 1
    (by decide) (by decide) ⟨"title", 1, "100.00", 0, "0.00"⟩ (by decide)

/-- C2 (the code faults): with `records_total = 0` the percentage
computation in `get_field_statistics` raises `ZeroDivisionError` instead
of producing `"0.00"` — evaluated here at a concrete failing input (an
empty index, any field). -/
theorem claim2_zero_total_division_fault :
    get_field_statistics (indexFieldResp []) "http://localhost:8983/solr/" "core" "title" 0
      = (["title"], .error .zeroDivision) := by decide

/-- C3: for every pair of schema-field and used-field name lists, the set
the `get_fields` body builds (`SortedSet(set(schema_fields +
used_fields))`) is their union in strict ascending lexicographic order
with no duplicate entries. -/
theorem claim3_ordered_union (schema_fields used_fields : List String) :
    List.Sorted (· < ·) (fieldsUnion schema_fields used_fields)
    ∧ (fieldsUnion schema_fields used_fields).Nodup
    ∧ ∀ x, x ∈ fieldsUnion schema_fields used_fields
        ↔ x ∈ schema_fields ∨ x ∈ used_fields := by
  refine ⟨sortedSet_sorted_lt _, sortedSet_nodup _, fun x => ?_⟩
  exact mem_sortedSet.trans List.mem_append

/-- C4 is false on the code: with no schema fields and a single empty
used-fields header line, `get_fields` yields the singleton Field Set
containing the empty field name — not an empty Field Set. -/
theorem claim4_counterexample :
    get_fields (format_solr_instance "localhost" none) "core" ⟨200, "", some []⟩ ⟨200, "\n"⟩
      = .ok [""]
    ∧ get_fields (format_solr_instance "localhost" none) "core" ⟨200, "", some []⟩ ⟨200, "\n"⟩
      ≠ .ok [] := by decide

/-- C4 amended: on an empty collection the run discovers the one-element
Field Set `[""]` (splitting the empty header line on the comma delimiter
yields one empty name), issues one coverage query for it, and then — the
records total being 0 — terminates with the division-by-zero fault,
having emitted nothing. -/
theorem claim4_empty_collection_amended :
    run emptyCollectionEnv = ⟨[""], [], .error .zeroDivision⟩ := by decide

/-- C5: `solr_request` raises exactly when the response status is not the
success code 200, and the raised error carries the core, the base URI,
the exact request, the status code, and the response body when one is
present. -/
theorem claim5_request_failure (core base_uri request : String) (resp : RawResponse) :
    ((∃ e, solr_request core base_uri request resp = .error e) ↔ resp.status ≠ 200)
    ∧ (resp.status ≠ 200 →
      solr_request core base_uri request resp
        = .error (.queryFailure core base_uri request resp.status
            (if resp.body = "" then none else some resp.body))) := by
  unfold solr_request
  by_cases h : resp.status = 200
  · simp [h]
  · simp [h]

/-- Witness for C5 at a concrete 503 response. -/
theorem claim5_witness :
    solr_request "core" "http://localhost:8983/solr/" "req" ⟨503, "oops"⟩
      = .error (.queryFailure "core" "http://localhost:8983/solr/" "req" 503 (some "oops")) :=
  (claim5_request_failure "core" "http://localhost:8983/solr/" "req" ⟨503, "oops"⟩).2
    (by decide)

/-- C6: `get_used_fields` raises `QueryFailure` whenever the (received)
response body is not exactly one line; with exactly one line it splits
the line on the fixed comma delimiter; and a run whose used-fields
response is not exactly one line fails before any coverage query is
issued (and emits nothing). -/
theorem claim6_single_line (base_uri core body : String) :
    ((pySplitlines body).length ≠ 1 →
      get_used_fields base_uri core ⟨200, body⟩
        = .error (.shapeFailure (usedFieldsRequest base_uri core) body))
    ∧ (∀ line, pySplitlines body = [line] →
      get_used_fields base_uri core ⟨200, body⟩ = .ok (pySplit line USED_FIELDS_DELIMITER))
    ∧ ∀ env : RunEnv, (pySplitlines env.usedResp.body).length ≠ 1 →
      (run env).queriedFields = [] ∧ (run env).output = []
        ∧ ∃ e, (run env).result = .error e := by
  refine ⟨?_, ?_, ?_⟩
  · intro hlen
    cases hsplit : pySplitlines body with
    | nil => simp [get_used_fields, solr_request, hsplit]
    | cons a t =>
      cases t with
      | nil => exact absurd (by rw [hsplit]; rfl) hlen
      | cons b t2 => simp [get_used_fields, solr_request, hsplit]
  · intro line hsplit
    simp [get_used_fields, solr_request, hsplit]
  · intro env hlen
    have hused : ∃ e, get_used_fields (format_solr_instance env.host env.port) env.core
        env.usedResp = .error e := by
      unfold get_used_fields
      cases hs : solr_request env.core (format_solr_instance env.host env.port)
          (usedFieldsRequest (format_solr_instance env.host env.port) env.core)
          env.usedResp with
      | error e => exact ⟨e, by simp⟩
      | ok rb =>
        have hrb : rb = env.usedResp.body := by
          unfold solr_request at hs
          by_cases h200 : env.usedResp.status = 200
          · simp [h200] at hs
            exact hs.symm
          · simp [h200] at hs
        subst hrb
        cases hsplit : pySplitlines env.usedResp.body with
        | nil =>
          exact ⟨.shapeFailure (usedFieldsRequest (format_solr_instance env.host env.port)
            env.core) env.usedResp.body, by simp [hsplit]⟩
        | cons a t =>
          cases t with
          | nil => exact absurd (by rw [hsplit]; rfl) hlen
          | cons b t2 =>
            exact ⟨.shapeFailure (usedFieldsRequest (format_solr_instance env.host env.port)
              env.core) env.usedResp.body, by simp [hsplit]⟩
    obtain ⟨e, he⟩ := hused
    have hgf : ∃ e2, get_fields (format_solr_instance env.host env.port) env.core
        env.schemaResp env.usedResp = .error e2 := by
      unfold get_fields
      cases hs : get_schema_fields (format_solr_instance env.host env.port) env.core
          env.schemaResp with
      | error e2 => exact ⟨e2, by simp⟩
      | ok sf => exact ⟨e, by simp [he]⟩
    obtain ⟨e2, hgf⟩ := hgf
    refine ⟨?_, ?_, ⟨e2, ?_⟩⟩ <;> simp [run, hgf]

/-- Witness for C6 at a concrete two-line used-fields response. -/
theorem claim6_witness :
    (run twoLineEnv).queriedFields = [] ∧ (run twoLineEnv).output = []
      ∧ ∃ e, (run twoLineEnv).result = .error e :=
  (claim6_single_line "http://localhost:8983/solr/" "core" "x\ny").2.2 twoLineEnv (by decide)

/-- C7 is false on the code as stated: a supplied port of `0` is not
appended to the endpoint (Python's truthiness test drops it). -/
theorem claim7_counterexample :
    format_solr_instance "localhost" (some 0) = "http://localhost/solr/"
    ∧ format_solr_instance "localhost" (some 0) ≠ "http://localhost:0/solr/" := by decide

/-- C7 amended: `format_solr_instance` defaults a host lacking the `http`
scheme prefix to `http://`, appends the port exactly when a nonzero port
is supplied, and appends the fixed suffix `/solr/`. -/
theorem claim7_endpoint_amended (host : String) (port : Option Int) :
    format_solr_instance host port = endpointSpec host port := by
  unfold format_solr_instance endpointSpec
  cases port with
  | none => simp [String.append_empty]
  | some p =>
    by_cases hp : p = 0
    · simp [hp, String.append_empty]
    · simp [hp, String.append_assoc]

/-- C8: for every match count and positive records total, the percentage
string of `get_field_statistics` has exactly two digits after the decimal
point, with the boundary counts 0 and `records_total` rendered as
`"0.00"` and `"100.00"`. -/
theorem claim8_two_decimal_digits (count records_total : Nat) (h : 0 < records_total) :
    TwoFracDigits (percentString count records_total)
    ∧ percentString 0 records_total = "0.00"
    ∧ percentString records_total records_total = "100.00" :=
  ⟨twoFracDigits_formatTwoDecimals _, percentString_zero records_total h,
    percentString_total records_total h⟩

/-- Witness for C8 at count 1 of total 3. -/
theorem claim8_witness :
    TwoFracDigits (percentString 1 3)
    ∧ percentString 0 3 = "0.00" ∧ percentString 3 3 = "100.00" :=
  claim8_two_decimal_digits 1 3 (by decide)

/-- C9: a failing coverage query aborts the remaining iteration (fields
after the failing one are never queried), the failure propagates to the
caller unchanged with nothing printed, and in general an erroring run
emits no output row and no header. -/
theorem claim9_fail_fast_no_partial_output :
    (∀ (fieldResp : String → CountResponse) (base_uri core : String) (records_total : Nat)
        (fs1 : List String) (f : String) (fs2 : List String) (t : List String) (e : RunError),
      (∀ g ∈ fs1, ∃ r,
        (get_all_field_statistics fieldResp base_uri core g records_total).2 = .ok r) →
      get_all_field_statistics fieldResp base_uri core f records_total = (t, .error e) →
      buildStats fieldResp base_uri core records_total (fs1 ++ f :: fs2)
        = ((fs1.flatMap fun g =>
            (get_all_field_statistics fieldResp base_uri core g records_total).1) ++ t,
          .error e))
    ∧ (∀ (env : RunEnv) (fields : List String) (records_total : Nat) (t : List String)
        (e : RunError),
      get_fields (format_solr_instance env.host env.port) env.core env.schemaResp
        env.usedResp = .ok fields →
      get_records_total (format_solr_instance env.host env.port) env.core env.totalResp
        = .ok records_total →
      buildStats env.fieldResp (format_solr_instance env.host env.port) env.core
        records_total fields = (t, .error e) →
      run env = ⟨t, [], .error e⟩)
    ∧ ∀ (env : RunEnv) (e : RunError), (run env).result = .error e → (run env).output = [] := by
  refine ⟨?_, ?_, ?_⟩
  · intro fieldResp base_uri core records_total fs1
    induction fs1 with
    | nil =>
      intro f fs2 t e _ hf
      simp [buildStats, hf]
    | cons g gs ih =>
      intro f fs2 t e hok hf
      obtain ⟨r, hr⟩ := hok g (by simp)
      have hg : get_all_field_statistics fieldResp base_uri core g records_total
          = ((get_all_field_statistics fieldResp base_uri core g records_total).1, .ok r) := by
        rw [← hr]
      rw [List.cons_append]
      rw [show buildStats fieldResp base_uri core records_total (g :: (gs ++ f :: fs2))
          = ((get_all_field_statistics fieldResp base_uri core g records_total).1
              ++ (buildStats fieldResp base_uri core records_total (gs ++ f :: fs2)).1,
            .error e) from ?_]
      · rw [ih f fs2 t e (fun g2 hg2 => hok g2 (by simp [hg2])) hf]
        simp [List.append_assoc]
      · rw [buildStats, hg, ih f fs2 t e (fun g2 hg2 => hok g2 (by simp [hg2])) hf]
  · intro env fields records_total t e hf ht hb
    simp [run, hf, ht, hb]
  · intro env e h
    cases hf : get_fields (format_solr_instance env.host env.port) env.core env.schemaResp
        env.usedResp with
    | error e2 => simp [run, hf]
    | ok fields =>
      cases ht : get_records_total (format_solr_instance env.host env.port) env.core
          env.totalResp with
      | error e2 => simp [run, hf, ht]
      | ok records_total =>
        rcases hb : buildStats env.fieldResp (format_solr_instance env.host env.port)
            env.core records_total fields with ⟨t, r⟩
        cases r with
        | error e2 => simp [run, hf, ht, hb]
        | ok stats => simp [run, hf, ht, hb] at h

/-- Witness for C9: the first field's count query answers 500, the run
stops after that one query, propagates the failure, and prints nothing. -/
theorem claim9_witness :
    run failingFieldEnv = ⟨["a"], [],
      .error (.queryFailure "core" "http://localhost/solr/"
        "http://localhost/solr/core/select?q=a%3A*&rows=0&wt=json" 500 (some "boom"))⟩ :=
  claim9_fail_fast_no_partial_output.2.1 failingFieldEnv ["a", "x"] 5 ["a"] _
    (by decide) (by decide) (by decide)

/-- C10: supplying port 0 produces the same base URI as supplying no port
at all — the port component is dropped whenever the value is falsy. -/
theorem claim10_port_zero_like_absent (host : String) :
    format_solr_instance host (some 0) = format_solr_instance host none := rfl
